import Mathlib

/-!
Verification of the mailing2fast-fastapi dispatch queue engine.

Shallow embedding of the core subsystem:
  queue.py   — EmailQueue over a Redis store (main list, retry sorted set, DLQ list)
  sender.py  — RateLimiter and EmailSender.send_email
  worker.py  — EmailWorker poll cycle and stop()

Time is modelled as `Int` seconds (datetime arithmetic is exact second
arithmetic here; the spec's properties are stated over a stubbed clock).
Serialization (model_dump_json / model_validate_json) round-trips, so queue
segments hold the structures directly.
-/

namespace Mailing2Fast

/-- Email message, restricted to the fields the core subsystem reads
(models.py, class EmailMessage). -/
structure EmailMessage where
  subject : String
  priority : String
  smtp_account : Option String
deriving DecidableEq, Repr

/-- Queued email with metadata (models.py, class QueuedEmail). -/
structure QueuedEmail where
  email : EmailMessage
  queued_at : Int
  retry_count : Nat
  last_error : Option String
  next_retry_at : Option Int
deriving DecidableEq, Repr

/-- Queue-processing configuration (settings.py, class QueueSettings).
The spec's configuration surface gives maxRetries >= 0 and
retryBaseDelaySeconds >= 0, hence Nat. -/
structure QueueSettings where
  max_retries : Nat
  retry_delay : Nat
deriving DecidableEq, Repr

/-- The three Redis segments of one queue namespace: the main list
(queue_name), the retry sorted set (retry_queue_name, members with scores),
and the dead-letter list (dead_letter_queue_name). Redis lists are written
head (left) first. -/
structure QState where
  main : List QueuedEmail
  retrySet : List (QueuedEmail × Int)
  dlq : List QueuedEmail
deriving DecidableEq, Repr

/-- The empty namespace: all three segments empty. -/
def QState.empty : QState := { main := [], retrySet := [], dlq := [] }

/-- Redis LPUSH: insert at the head (left end) of a list. -/
def lpush (x : α) (l : List α) : List α := x :: l

/-- Redis RPUSH: insert at the tail (right end) of a list. -/
def rpush (x : α) (l : List α) : List α := l ++ [x]

/-- Redis RPOP: remove and return the tail (right end) element. -/
def rpop : List α → Option (α × List α)
  | [] => none
  | x :: xs =>
    match rpop xs with
    | none => some (x, [])
    | some (y, rest) => some (y, x :: rest)

/-- Redis ZADD with one member: if the member is present its score is
updated, otherwise the member is inserted. -/
def zadd (s : List (QueuedEmail × Int)) (m : QueuedEmail) (score : Int) :
    List (QueuedEmail × Int) :=
  if s.any (fun p => p.1 = m) then
    s.map (fun p => if p.1 = m then (m, score) else p)
  else
    s ++ [(m, score)]

/-- Redis ZRANGEBYSCORE: the members whose score lies in [lo, hi]. -/
def zrangebyscore (s : List (QueuedEmail × Int)) (lo hi : Int) :
    List (QueuedEmail × Int) :=
  s.filter (fun p => lo ≤ p.2 ∧ p.2 ≤ hi)

/-- Redis ZREMRANGEBYSCORE: remove the members whose score lies in [lo, hi]. -/
def zremrangebyscore (s : List (QueuedEmail × Int)) (lo hi : Int) :
    List (QueuedEmail × Int) :=
  s.filter (fun p => ¬ (lo ≤ p.2 ∧ p.2 ≤ hi))

/-- queue.py lines 79-83: the QueuedEmail wrapper created by enqueue. -/
def mkQueuedEmail (now : Int) (email : EmailMessage) : QueuedEmail :=
  { email := email, queued_at := now, retry_count := 0,
    last_error := none, next_retry_at := none }

/-- queue.py, EmailQueue.enqueue (lines 68-98): normal items are LPUSHed to
the head, high-priority items are RPUSHed to the tail of the main list. -/
def enqueue (now : Int) (s : QState) (email : EmailMessage) (priority : Bool) :
    QState :=
  let qe := mkQueuedEmail now email
  if priority then { s with main := rpush qe s.main }
  else { s with main := lpush qe s.main }

/-- queue.py, EmailQueue.dequeue with timeout 0 (lines 100-131): non-blocking
RPOP from the tail of the main list. -/
def dequeue (s : QState) : Option QueuedEmail × QState :=
  match rpop s.main with
  | none => (none, s)
  | some (qe, rest) => (some qe, { s with main := rest })

/-- queue.py, EmailQueue.move_to_dlq (lines 202-218): LPUSH onto the
dead-letter list. -/
def move_to_dlq (s : QState) (qe : QueuedEmail) : QState :=
  { s with dlq := lpush qe s.dlq }

/-- queue.py lines 147-153 of EmailQueue.requeue_for_retry: increment
retry_count, record last_error, compute the exponential-backoff delay
retry_delay * 2 ^ (retry_count - 1) and set next_retry_at = now + delay.
These mutations happen before the max-retries check. -/
def updateForRetry (cfg : QueueSettings) (now : Int) (qe : QueuedEmail)
    (error : String) : QueuedEmail :=
  let qe1 := { qe with retry_count := qe.retry_count + 1,
                       last_error := some error }
  let delay : Nat := cfg.retry_delay * 2 ^ (qe1.retry_count - 1)
  { qe1 with next_retry_at := some (now + (delay : Int)) }

/-- queue.py, EmailQueue.requeue_for_retry (lines 133-173): update the item
(updateForRetry), then if retry_count >= max_retries move it to the DLQ and
return; otherwise ZADD it into the retry set with score next_retry_at. -/
def requeue_for_retry (cfg : QueueSettings) (now : Int) (s : QState)
    (qe : QueuedEmail) (error : String) : QState :=
  let qe2 := updateForRetry cfg now qe error
  if qe2.retry_count ≥ cfg.max_retries then
    move_to_dlq s qe2
  else
    let score := (qe2.next_retry_at).getD 0
    { s with retrySet := zadd s.retrySet qe2 score }

/-- queue.py lines 185-188 of EmailQueue.get_retry_emails: the first Redis
command, ZRANGEBYSCORE retry_queue 0 now, read without removal. -/
def get_retry_emails_read (now : Int) (s : QState) : List QueuedEmail :=
  (zrangebyscore s.retrySet 0 now).map Prod.fst

/-- queue.py line 194 of EmailQueue.get_retry_emails: the second, separate
Redis command, ZREMRANGEBYSCORE retry_queue 0 now. -/
def get_retry_emails_remove (now : Int) (s : QState) : QState :=
  { s with retrySet := zremrangebyscore s.retrySet 0 now }

/-- queue.py, EmailQueue.get_retry_emails (lines 175-200) as executed by a
single caller with no interleaving: read the due entries, then remove them. -/
def get_retry_emails (now : Int) (s : QState) : List QueuedEmail × QState :=
  (get_retry_emails_read now s, get_retry_emails_remove now s)

/-- Two callers of get_retry_emails interleaved at the await boundary between
the ZRANGEBYSCORE and the ZREMRANGEBYSCORE commands (each Redis command is
atomic, but the two commands of one call are separate awaits): caller 1
reads, caller 2 reads, caller 1 removes, caller 2 removes. Returns what each
caller returns and the final state. -/
def drainInterleaved (now : Int) (s : QState) :
    List QueuedEmail × List QueuedEmail × QState :=
  let r1 := get_retry_emails_read now s
  let r2 := get_retry_emails_read now s
  let s1 := get_retry_emails_remove now s
  let s2 := get_retry_emails_remove now s1
  (r1, r2, s2)

/-- Rate limiter state (sender.py, class RateLimiter): per-hour cap, optional
per-minute cap, and the two deques of grant timestamps (head = oldest). -/
structure RateLimiter where
  max_per_hour : Nat
  max_per_minute : Option Nat
  hourly_timestamps : List Int
  minute_timestamps : List Int
deriving DecidableEq, Repr

/-- sender.py, RateLimiter._cleanup_timestamps (lines 105-116): popleft the
hourly deque while its head is strictly older than now - 1h; if a per-minute
cap is configured, likewise for the minute deque with now - 1min. Note the
strict comparison: a timestamp exactly one hour old survives. -/
def cleanup_timestamps (rl : RateLimiter) (now : Int) : RateLimiter :=
  let h := rl.hourly_timestamps.dropWhile (fun t => t < now - 3600)
  let m :=
    if rl.max_per_minute.isSome then
      rl.minute_timestamps.dropWhile (fun t => t < now - 60)
    else rl.minute_timestamps
  { rl with hourly_timestamps := h, minute_timestamps := m }

/-- sender.py, RateLimiter.acquire lines 65-80: the hourly while-loop under a
stubbed clock. While the hourly deque is at or over capacity: take the oldest
entry, wait_seconds = oldest + 1h - now; if positive, sleep (the stubbed
clock advances now to oldest + 1h), clean both deques and re-check; else
break out and grant. Fuel bounds the recursion; every run below terminates
well within the fuel given. -/
def hourlyWait : Nat → RateLimiter → Int → RateLimiter × Int
  | 0, rl, now => (rl, now)
  | fuel + 1, rl, now =>
    if rl.hourly_timestamps.length ≥ rl.max_per_hour then
      match rl.hourly_timestamps.head? with
      | none => (rl, now)
      | some oldest =>
        if oldest + 3600 - now > 0 then
          let now2 := now + (oldest + 3600 - now)
          hourlyWait fuel (cleanup_timestamps rl now2) now2
        else (rl, now)
    else (rl, now)

/-- sender.py, RateLimiter.acquire lines 83-98: the per-minute while-loop,
mirroring the hourly one with a 60-second window, entered only when a
per-minute cap is configured. -/
def minuteWait : Nat → RateLimiter → Int → Nat → RateLimiter × Int
  | 0, rl, now, _ => (rl, now)
  | fuel + 1, rl, now, maxM =>
    if rl.minute_timestamps.length ≥ maxM then
      match rl.minute_timestamps.head? with
      | none => (rl, now)
      | some oldest =>
        if oldest + 60 - now > 0 then
          let now2 := now + (oldest + 60 - now)
          minuteWait fuel (cleanup_timestamps rl now2) now2 maxM
        else (rl, now)
    else (rl, now)

/-- sender.py, RateLimiter.acquire (lines 53-103) under a stubbed clock:
clean both deques, run the hourly wait loop, then the minute wait loop if
configured, then append the current time to each configured deque. Returns
the new limiter state and the time at which the permit was granted. -/
def acquire (fuel : Nat) (rl : RateLimiter) (now : Int) : RateLimiter × Int :=
  let rl1 := cleanup_timestamps rl now
  let (rl2, now2) := hourlyWait fuel rl1 now
  let (rl3, now3) :=
    match rl2.max_per_minute with
    | some maxM => minuteWait fuel rl2 now2 maxM
    | none => (rl2, now2)
  let rl4 :=
    { rl3 with
      hourly_timestamps := rl3.hourly_timestamps ++ [now3],
      minute_timestamps :=
        if rl3.max_per_minute.isSome then rl3.minute_timestamps ++ [now3]
        else rl3.minute_timestamps }
  (rl4, now3)

/-- Email delivery status (models.py, class EmailStatus). -/
inductive EmailStatus where
  | pending
  | queued
  | sending
  | sent
  | failed
  | retrying
deriving DecidableEq, Repr

/-- Result of a send operation (models.py, class EmailResult). -/
structure EmailResult where
  status : EmailStatus
  message_id : Option String
  error : Option String
  sent_at : Option Int
  retry_count : Nat
  smtp_account : Option String
deriving DecidableEq, Repr

/-- models.py, EmailResult.is_success. -/
def EmailResult.is_success (r : EmailResult) : Bool := r.status = EmailStatus.sent

/-- SMTP account configuration, restricted to the identifying fields
(settings.py, class SMTPAccountSettings). -/
structure SMTPAccountSettings where
  host : String
  from_email : String
deriving DecidableEq, Repr

/-- Python truthiness of an optional string: None and the empty string are
falsy, so a Python expression x or d resolves to d for both. -/
def orDefault (x : Option String) (d : String) : String :=
  match x with
  | none => d
  | some n => if n = "" then d else n

/-- settings.py, MailSettings.get_smtp_account (lines 195-216): resolve the
account name (falling back to default_account), look it up in smtp_accounts,
and raise ValueError when absent — modelled as Except, the error value being
the exception message consumed by the caller via str(e). -/
def get_smtp_account (accounts : List (String × SMTPAccountSettings))
    (default_account : String) (account_name : Option String) :
    Except String SMTPAccountSettings :=
  let name := orDefault account_name default_account
  match accounts.find? (fun p => p.1 = name) with
  | some p => Except.ok p.2
  | none => Except.error ("SMTP account " ++ name ++ " not found")

/-- sender.py, EmailSender.send_email (lines 149-195), after the rate-limit
permit is acquired. The try block resolves the SMTP account and then runs
the render/build/SMTP pipeline, whose outcome is the transport parameter
(ok message_id, or error carrying str(e) of whatever exception the pipeline
raised). Every exception escaping the try block is caught by the single
except-Exception handler, which returns a FAILED result with error =
str(e); success returns a SENT result with the message id. -/
def send_email (accounts : List (String × SMTPAccountSettings))
    (default_account : String) (email : EmailMessage) (now : Int)
    (transport : Except String String) : EmailResult :=
  match get_smtp_account accounts default_account email.smtp_account with
  | Except.error e =>
    { status := EmailStatus.failed, message_id := none, error := some e,
      sent_at := none, retry_count := 0,
      smtp_account := some (orDefault email.smtp_account default_account) }
  | Except.ok _ =>
    match transport with
    | Except.ok mid =>
      { status := EmailStatus.sent, message_id := some mid, error := none,
        sent_at := some now, retry_count := 0,
        smtp_account := some (orDefault email.smtp_account default_account) }
    | Except.error e =>
      { status := EmailStatus.failed, message_id := none, error := some e,
        sent_at := none, retry_count := 0,
        smtp_account := some (orDefault email.smtp_account default_account) }

/-- Observable worker events within one poll cycle: an item popped from the
main list (worker.py line 111), a successful delivery (line 142), or a
failed delivery routed into requeue_for_retry (line 153). -/
inductive WEvent where
  | dequeuedMain (qe : QueuedEmail)
  | sent (qe : QueuedEmail)
  | requeued (qe : QueuedEmail)
deriving DecidableEq, Repr

/-- True exactly on main-queue pop events. -/
def WEvent.isDequeuedMain : WEvent → Bool
  | WEvent.dequeuedMain _ => true
  | _ => false

/-- worker.py, EmailWorker._send_email (lines 131-161): run the sender on the
item's message (the sender is a stub deliver returning the EmailResult); on
success only log, otherwise requeue_for_retry with the result's error text,
falling back to the literal Unknown error for a missing or empty error. -/
def worker_send_email (cfg : QueueSettings) (now : Int)
    (deliver : EmailMessage → EmailResult) (s : QState) (qe : QueuedEmail) :
    QState × List WEvent :=
  let result := deliver qe.email
  if result.is_success then (s, [WEvent.sent qe])
  else
    (requeue_for_retry cfg now s qe (orDefault result.error "Unknown error"),
     [WEvent.requeued qe])

/-- worker.py, EmailWorker._process_retry_queue (lines 119-129): drain the
due retry entries once via get_retry_emails, then send each drained email in
order — no batch bound applies here. -/
def process_retry_queue (cfg : QueueSettings) (now : Int)
    (deliver : EmailMessage → EmailResult) (s : QState) :
    QState × List WEvent :=
  let drained := get_retry_emails now s
  drained.1.foldl
    (fun acc qe =>
      let r := worker_send_email cfg now deliver acc.1 qe
      (r.1, acc.2 ++ r.2))
    (drained.2, [])

/-- worker.py, EmailWorker._process_main_queue (lines 105-117): up to
batch_size times, non-blocking dequeue from the main list; stop early when
the queue is empty; send each dequeued email. -/
def process_main_queue (cfg : QueueSettings) (now : Int)
    (deliver : EmailMessage → EmailResult) :
    Nat → QState → QState × List WEvent
  | 0, s => (s, [])
  | b + 1, s =>
    match dequeue s with
    | (none, _) => (s, [])
    | (some qe, s1) =>
      let r := worker_send_email cfg now deliver s1 qe
      let r2 := process_main_queue cfg now deliver b r.1
      (r2.1, WEvent.dequeuedMain qe :: r.2 ++ r2.2)

/-- worker.py, EmailWorker._process_loop body, one iteration (lines 86-95):
process the retry queue first, then the main queue bounded by batch_size. -/
def poll_cycle (cfg : QueueSettings) (batch : Nat) (now : Int)
    (deliver : EmailMessage → EmailResult) (s : QState) :
    QState × List WEvent :=
  let r1 := process_retry_queue cfg now deliver s
  let r2 := process_main_queue cfg now deliver batch r1.1
  (r2.1, r1.2 ++ r2.2)

/-- Worker control state (worker.py, EmailWorker fields _running, _task and
the queue connection). -/
structure WorkerState where
  running : Bool
  task_active : Bool
  connected : Bool
deriving DecidableEq, Repr

/-- The side-effecting operations EmailWorker.stop can perform. -/
inductive StopOp where
  | cancelTask
  | awaitTask
  | disconnect
deriving DecidableEq, Repr

/-- worker.py, EmailWorker.stop (lines 61-80): if not running, return at once
with no operations; otherwise clear the running flag, cancel and await the
task when one exists, and disconnect from Redis. -/
def stop (w : WorkerState) : WorkerState × List StopOp :=
  if w.running = false then (w, [])
  else
    let taskOps :=
      if w.task_active then [StopOp.cancelTask, StopOp.awaitTask] else []
    ({ running := false, task_active := false, connected := false },
     taskOps ++ [StopOp.disconnect])

/-- Outcome of the awaited sender.send_email call at worker.py line 140 when
stop() may run concurrently: either the await completes with an EmailResult,
or stop() cancels the worker task while the send is in flight, raising
CancelledError at this await. -/
inductive SendOutcome where
  | completed (result : EmailResult)
  | cancelledMidFlight
deriving DecidableEq, Repr

/-- worker.py, EmailWorker._send_email (lines 131-161) with cancellation.
When the await completes, the source's success/requeue branches run. When
stop() cancels the task mid-flight, CancelledError is raised at the await;
since Python 3.8 CancelledError derives from BaseException, so the handler
except Exception at worker.py line 155 does not catch it, no requeue or DLQ
write happens, and the error propagates to _process_loop, whose handler
except asyncio.CancelledError (lines 97-99) breaks out of the loop. The Bool
result is whether the loop keeps running (false = loop exited). -/
def worker_send_email_cancellable (cfg : QueueSettings) (now : Int)
    (s : QState) (qe : QueuedEmail) (outcome : SendOutcome) :
    QState × Bool :=
  match outcome with
  | SendOutcome.completed result =>
    if result.is_success then (s, true)
    else
      (requeue_for_retry cfg now s qe (orDefault result.error "Unknown error"),
       true)
  | SendOutcome.cancelledMidFlight => (s, false)

/-- One main-queue item being processed while stop() arrives: the item is
popped (worker.py line 111), then its send reaches the outcome. Returns the
resulting queue state and whether the loop keeps running. -/
def stopDuringDelivery (cfg : QueueSettings) (now : Int) (s : QState)
    (outcome : SendOutcome) : QState × Bool :=
  match dequeue s with
  | (none, s0) => (s0, true)
  | (some qe, s1) => worker_send_email_cancellable cfg now s1 qe outcome

/-- Repeated EmailQueue.dequeue(0) calls, fuel-bounded: the order in which a
consumer sees the main segment. -/
def drainMainFuel : Nat → QState → List QueuedEmail
  | 0, _ => []
  | f + 1, s =>
    match dequeue s with
    | (none, _) => []
    | (some qe, s1) => qe :: drainMainFuel f s1

/-- Drain the whole main segment by repeated dequeue(0). -/
def drainMain (s : QState) : List QueuedEmail :=
  drainMainFuel s.main.length s

/-- A sequence of enqueue calls, each a message with its priority flag. -/
def enqueueAll (now : Int) (s : QState) (ops : List (EmailMessage × Bool)) :
    QState :=
  ops.foldl (fun acc op => enqueue now acc op.1 op.2) s

/-- The high-priority messages of an enqueue sequence, in call order. -/
def highs (ops : List (EmailMessage × Bool)) : List EmailMessage :=
  (ops.filter (fun p => p.2 = true)).map Prod.fst

/-- The normal-priority messages of an enqueue sequence, in call order. -/
def normals (ops : List (EmailMessage × Bool)) : List EmailMessage :=
  (ops.filter (fun p => p.2 = false)).map Prod.fst

/-- Number of grant timestamps lying in the trailing window
(endTime - span, endTime]. -/
def grantsInWindow (grants : List Int) (endTime : Int) (span : Int) : Nat :=
  (grants.filter
    (fun t => decide (endTime - span < t) && decide (t ≤ endTime))).length

/-- Sample message A. -/
def msgA : EmailMessage :=
  { subject := "A", priority := "normal", smtp_account := none }

/-- Sample message B. -/
def msgB : EmailMessage :=
  { subject := "B", priority := "normal", smtp_account := none }

/-- Sample high-priority message C. -/
def msgC : EmailMessage :=
  { subject := "C", priority := "high", smtp_account := none }

/-- Sample message naming an SMTP account that is not configured. -/
def msgU : EmailMessage :=
  { subject := "U", priority := "normal", smtp_account := some "missing" }

/-- A stub sender whose every delivery succeeds. -/
def deliverOk : EmailMessage → EmailResult := fun _ =>
  { status := EmailStatus.sent, message_id := some "mid", error := none,
    sent_at := some 0, retry_count := 0, smtp_account := none }

/-- C1: for every failed delivery handled by requeue_for_retry, with n =
attemptCount after the increment (so n >= 1), the updated item carries
attemptCount n and nextRetryAt = now + retryBaseDelay * 2 ^ (n - 1) exactly,
and requeue_for_retry stores exactly that updated item, either in the
dead-letter list or in the retry set scheduled at that time. -/
theorem requeue_backoff_exact (cfg : QueueSettings) (now : Int) (s : QState)
    (qe : QueuedEmail) (err : String) :
    (updateForRetry cfg now qe err).retry_count = qe.retry_count + 1 ∧
    (updateForRetry cfg now qe err).next_retry_at =
      some (now + ((cfg.retry_delay * 2 ^ (qe.retry_count + 1 - 1) : Nat) : Int)) ∧
    (requeue_for_retry cfg now s qe err =
        move_to_dlq s (updateForRetry cfg now qe err) ∨
      requeue_for_retry cfg now s qe err =
        { s with retrySet := (zadd s.retrySet (updateForRetry cfg now qe err)
            (now + ((cfg.retry_delay * 2 ^ (qe.retry_count + 1 - 1) : Nat) : Int))) }) := by
  refine ⟨rfl, rfl, ?_⟩
  unfold requeue_for_retry
  by_cases h : (updateForRetry cfg now qe err).retry_count ≥ cfg.max_retries
  · left
    simp [h]
  · right
    simp [h, updateForRetry]
    intro hc
    exact absurd hc h

/-- C2: whenever a failure raises the attempt count to at least max_retries,
requeue_for_retry puts the updated item into the dead-letter segment and
leaves the retry set (and the main segment) untouched, so the item is never
scheduled again; with max_retries = 0 this is the very first failure. -/
theorem requeue_dead_letters_at_max (cfg : QueueSettings) (now : Int)
    (s : QState) (qe : QueuedEmail) (err : String)
    (h : qe.retry_count + 1 ≥ cfg.max_retries) :
    updateForRetry cfg now qe err ∈ (requeue_for_retry cfg now s qe err).dlq ∧
    (requeue_for_retry cfg now s qe err).retrySet = s.retrySet ∧
    (requeue_for_retry cfg now s qe err).main = s.main := by
  have hc : (updateForRetry cfg now qe err).retry_count ≥ cfg.max_retries := h
  unfold requeue_for_retry
  simp [hc, move_to_dlq, lpush]

/-- Witness for C2 at max_retries = 0: the first failure of a fresh item goes
straight to the dead-letter segment and the retry set stays empty. -/
theorem requeue_dead_letters_at_max_witness :
    updateForRetry ⟨0, 300⟩ 0 (mkQueuedEmail 0 msgA) "boom" ∈
      (requeue_for_retry ⟨0, 300⟩ 0 QState.empty (mkQueuedEmail 0 msgA) "boom").dlq ∧
    (requeue_for_retry ⟨0, 300⟩ 0 QState.empty (mkQueuedEmail 0 msgA) "boom").retrySet =
      QState.empty.retrySet ∧
    (requeue_for_retry ⟨0, 300⟩ 0 QState.empty (mkQueuedEmail 0 msgA) "boom").main =
      QState.empty.main :=
  requeue_dead_letters_at_max ⟨0, 300⟩ 0 QState.empty (mkQueuedEmail 0 msgA)
    "boom" (by decide)

/-- C9 counterexample: with max_retries = 1 and retry_delay = 300, the first
failure of a fresh item (whose next_retry_at is none) dead-letters it, yet
the item lands in the DLQ with next_retry_at changed to some 300 — the code
sets next_retry_at at queue.py line 153 before the max-retries check at line
156, so it is not left unchanged as the claim states. -/
theorem dlq_next_retry_cex :
    ((requeue_for_retry ⟨1, 300⟩ 0 QState.empty (mkQueuedEmail 0 msgB) "boom").dlq.map
        (fun q => q.next_retry_at)) = [some 300] ∧
    (mkQueuedEmail 0 msgB).next_retry_at = none := by
  decide

/-- C9 amended: requeue_for_retry updates attemptCount and lastError and sets
nextRetryAt = now + delay on every failure; in particular a dead-lettered
item reaches the DLQ with nextRetryAt set to now + delay, not unchanged. -/
theorem dlq_sets_next_retry (cfg : QueueSettings) (now : Int) (s : QState)
    (qe : QueuedEmail) (err : String)
    (h : qe.retry_count + 1 ≥ cfg.max_retries) :
    (requeue_for_retry cfg now s qe err).dlq.head? =
      some { qe with retry_count := qe.retry_count + 1,
                     last_error := some err,
                     next_retry_at :=
                       some (now + ((cfg.retry_delay * 2 ^ (qe.retry_count + 1 - 1) : Nat) : Int)) } := by
  have hc : cfg.max_retries ≤ qe.retry_count + 1 := h
  unfold requeue_for_retry
  simp [updateForRetry, move_to_dlq, lpush, hc]

/-- Witness for the amended C9: a fresh item under max_retries = 1 and
retry_delay = 300 is dead-lettered by its first failure with attemptCount 1,
lastError recorded, and nextRetryAt set to 300. -/
theorem dlq_sets_next_retry_witness :
    (requeue_for_retry ⟨1, 300⟩ 0 QState.empty (mkQueuedEmail 0 msgB) "boom").dlq.head? =
      some { mkQueuedEmail 0 msgB with
               retry_count := 1, last_error := some "boom",
               next_retry_at := some ((0 : Int) + ((300 * 2 ^ (0 + 1 - 1) : Nat) : Int)) } :=
  dlq_sets_next_retry ⟨1, 300⟩ 0 QState.empty (mkQueuedEmail 0 msgB) "boom"
    (by decide)

/-- RPOP of a nonempty list removes its last element. -/
theorem rpop_append_singleton (l : List α) (x : α) :
    rpop (l ++ [x]) = some (x, l) := by
  induction l with
  | nil => rfl
  | cons a t ih => simp [rpop, ih]

/-- Draining the whole main segment by repeated dequeue(0) returns it in
right-to-left (pop) order. -/
theorem drainMainFuel_eq_reverse (l : List QueuedEmail)
    (r : List (QueuedEmail × Int)) (d : List QueuedEmail) :
    drainMainFuel l.length { main := l, retrySet := r, dlq := d } = l.reverse := by
  induction l using List.reverseRecOn with
  | nil => rfl
  | append_singleton t x ih =>
    have hlen : (t ++ [x]).length = t.length + 1 := by simp
    rw [hlen]
    simp only [drainMainFuel, dequeue, rpop_append_singleton]
    rw [ih]
    simp

/-- The main segment after a sequence of enqueue calls: normal items pile up
LPUSHed on the left (newest first), high-priority items pile up RPUSHed on
the right (newest last), around whatever was already there. -/
theorem enqueueAll_main (now : Int) (ops : List (EmailMessage × Bool)) :
    ∀ s : QState,
      (enqueueAll now s ops).main =
        ((normals ops).map (mkQueuedEmail now)).reverse ++ s.main ++
          (highs ops).map (mkQueuedEmail now) := by
  induction ops with
  | nil => intro s; simp [enqueueAll, highs, normals]
  | cons op rest ih =>
    intro s
    rcases op with ⟨e, pr⟩
    rcases pr with _ | _
    · have hmain : (enqueue now s e false).main = mkQueuedEmail now e :: s.main := rfl
      have := ih (enqueue now s e false)
      rw [show enqueueAll now s ((e, false) :: rest) =
            enqueueAll now (enqueue now s e false) rest from rfl] at *
      rw [this, hmain]
      simp [highs, normals]
    · have hmain : (enqueue now s e true).main = s.main ++ [mkQueuedEmail now e] := rfl
      have := ih (enqueue now s e true)
      rw [show enqueueAll now s ((e, true) :: rest) =
            enqueueAll now (enqueue now s e true) rest from rfl] at *
      rw [this, hmain]
      simp [highs, normals]

/-- Enqueue calls leave the retry set and the DLQ untouched. -/
theorem enqueueAll_other (now : Int) (ops : List (EmailMessage × Bool)) :
    ∀ s : QState,
      (enqueueAll now s ops).retrySet = s.retrySet ∧
      (enqueueAll now s ops).dlq = s.dlq := by
  induction ops with
  | nil => intro s; exact ⟨rfl, rfl⟩
  | cons op rest ih =>
    intro s
    rcases op with ⟨e, pr⟩
    have h := ih (enqueue now s e pr)
    have hr : (enqueue now s e pr).retrySet = s.retrySet := by
      rcases pr with _ | _ <;> rfl
    have hd : (enqueue now s e pr).dlq = s.dlq := by
      rcases pr with _ | _ <;> rfl
    exact ⟨by rw [show enqueueAll now s ((e, pr) :: rest) =
                    enqueueAll now (enqueue now s e pr) rest from rfl,
                  h.1, hr],
           by rw [show enqueueAll now s ((e, pr) :: rest) =
                    enqueueAll now (enqueue now s e pr) rest from rfl,
                  h.2, hd]⟩

/-- C3 counterexample: enqueueing two high-priority messages B then C and
draining yields C before B — the high-priority lane is consumed LIFO (the
enqueue docstring itself says LIFO for high priority), so the claimed
first-in-first-out order among high-priority items is false. -/
theorem priority_high_lane_lifo_cex :
    drainMain (enqueueAll 0 QState.empty [(msgB, true), (msgC, true)]) ≠
      [mkQueuedEmail 0 msgB, mkQueuedEmail 0 msgC] := by
  decide

/-- C3 amended: dequeue returns all high-priority items before any normal
item; normal items come out first-in-first-out, but high-priority items come
out last-in-first-out (newest high-priority first). In particular enqueueing
normal A, B then high-priority C drains as C, A, B. -/
theorem priority_lane_order (now : Int) (ops : List (EmailMessage × Bool)) :
    drainMain (enqueueAll now QState.empty ops) =
      ((highs ops).map (mkQueuedEmail now)).reverse ++
        (normals ops).map (mkQueuedEmail now) ∧
    drainMain (enqueueAll 0 QState.empty
        [(msgA, false), (msgB, false), (msgC, true)]) =
      [mkQueuedEmail 0 msgC, mkQueuedEmail 0 msgA, mkQueuedEmail 0 msgB] := by
  constructor
  · have hmain := enqueueAll_main now ops QState.empty
    have hother := enqueueAll_other now ops QState.empty
    unfold drainMain
    rcases hq : enqueueAll now QState.empty ops with ⟨m, r, d⟩
    rw [hq] at hmain
    simp only at hmain
    rw [hmain]
    rw [drainMainFuel_eq_reverse]
    simp [QState.empty]
  · decide

/-- C4: get_retry_emails issues ZRANGEBYSCORE and ZREMRANGEBYSCORE as two
separate Redis commands (two awaits, queue.py lines 188 and 194), so when two
callers interleave between them — read, read, remove, remove — both callers
are handed the single scheduled entry: the same logical item is returned
twice, contradicting the claimed at-most-once hand-back. -/
theorem drain_duplicate_hand_back :
    (drainInterleaved 10
        { main := [], retrySet := [(mkQueuedEmail 0 msgA, 5)], dlq := [] }).1 =
      [mkQueuedEmail 0 msgA] ∧
    (drainInterleaved 10
        { main := [], retrySet := [(mkQueuedEmail 0 msgA, 5)], dlq := [] }).2.1 =
      [mkQueuedEmail 0 msgA] := by
  decide

/-- C5: with maxPerHour = 1, no per-minute cap, and a stubbed clock starting
at 0, three sequential acquire() calls are granted at times 0, 3600, 3600.
The third grant happens while the window is already at capacity: cleanup
keeps the entry that is exactly one hour old (strict comparison, sender.py
line 109) and the wait loop breaks when the computed wait is 0 (line 79)
without re-checking capacity, so two grants land inside the trailing 1-hour
window (0, 3600] — more than maxPerHour, contradicting the claim that no
permit ever pushes a window over its maximum at the instant of grant. -/
theorem rate_limiter_over_grant :
    (acquire 8 (acquire 8 (acquire 8 ⟨1, none, [], []⟩ 0).1
        (acquire 8 ⟨1, none, [], []⟩ 0).2).1
      (acquire 8 (acquire 8 ⟨1, none, [], []⟩ 0).1
        (acquire 8 ⟨1, none, [], []⟩ 0).2).2).1.hourly_timestamps =
      [0, 3600, 3600] ∧
    grantsInWindow [0, 3600, 3600] 3600 3600 = 2 ∧
    2 > (1 : Nat) := by
  decide

/-- C7: stop() on a worker that is not running returns immediately, performs
no queue or task operations and leaves the state unchanged; and since stop()
always clears the running flag, a second stop() after any first stop() is
such a no-op. -/
theorem stop_idempotent :
    (∀ w : WorkerState, w.running = false → stop w = (w, [])) ∧
    (∀ w : WorkerState, stop (stop w).1 = ((stop w).1, [])) := by
  constructor
  · intro w h
    simp [stop, h]
  · intro w
    by_cases h : w.running = false
    · simp [stop, h]
    · simp only [stop, h, if_false]
      simp

/-- Witness for C7: stopping an already-stopped worker (running = false,
with a task object and an open connection still around) changes nothing and
performs no operations. -/
theorem stop_idempotent_witness :
    stop ⟨false, true, true⟩ = (⟨false, true, true⟩, []) :=
  stop_idempotent.1 ⟨false, true, true⟩ rfl

/-- C8: one item is popped from the main queue and its send is in flight when
stop() cancels the worker task. CancelledError is raised at the send await;
it is a BaseException, so the except-Exception handler in _send_email does
not catch it and no requeue, DLQ write or success is recorded; _process_loop
catches it and breaks. The popped item then sits in no segment — it has been
silently dropped, contradicting the claim that stop() completes only after
the in-flight delivery's outcome is recorded. -/
theorem stop_drops_in_flight_item :
    (stopDuringDelivery ⟨3, 300⟩ 0
        { main := [mkQueuedEmail 0 msgA], retrySet := [], dlq := [] }
        SendOutcome.cancelledMidFlight).2 = false ∧
    (stopDuringDelivery ⟨3, 300⟩ 0
        { main := [mkQueuedEmail 0 msgA], retrySet := [], dlq := [] }
        SendOutcome.cancelledMidFlight).1 =
      { main := [], retrySet := [], dlq := [] } := by
  decide

/-- Each _send_email call emits exactly one event, a sent or a requeued
event for the item it handled — never a main-queue pop. -/
theorem worker_send_email_events (cfg : QueueSettings) (now : Int)
    (deliver : EmailMessage → EmailResult) (s : QState) (qe : QueuedEmail) :
    (worker_send_email cfg now deliver s qe).2 = [WEvent.sent qe] ∨
    (worker_send_email cfg now deliver s qe).2 = [WEvent.requeued qe] := by
  unfold worker_send_email
  by_cases h : (deliver qe.email).is_success = true
  · left; simp [h]
  · right
    simp only [h]
    simp

/-- The retry-phase fold emits one (non-pop) event per drained email. -/
theorem retry_fold_events (cfg : QueueSettings) (now : Int)
    (deliver : EmailMessage → EmailResult) (l : List QueuedEmail) :
    ∀ acc : QState × List WEvent,
      ((l.foldl (fun acc qe =>
          let r := worker_send_email cfg now deliver acc.1 qe
          (r.1, acc.2 ++ r.2)) acc).2.all (fun e => !e.isDequeuedMain)) =
        (acc.2.all (fun e => !e.isDequeuedMain)) ∧
      (l.foldl (fun acc qe =>
          let r := worker_send_email cfg now deliver acc.1 qe
          (r.1, acc.2 ++ r.2)) acc).2.length = acc.2.length + l.length := by
  induction l with
  | nil => intro acc; simp
  | cons qe rest ih =>
    intro acc
    have hstep := ih (let r := worker_send_email cfg now deliver acc.1 qe
                      (r.1, acc.2 ++ r.2))
    rcases worker_send_email_events cfg now deliver acc.1 qe with h | h <;>
      simp only [List.foldl_cons] at * <;>
      rw [hstep.1, hstep.2] at * <;>
      simp [h, List.all_append, WEvent.isDequeuedMain, Nat.add_assoc,
        Nat.add_comm 1 rest.length]

/-- The events of the retry phase: no main-queue pop occurs, and exactly one
event is emitted per due entry drained — the batch size plays no role. -/
theorem process_retry_queue_events (cfg : QueueSettings) (now : Int)
    (deliver : EmailMessage → EmailResult) (s : QState) :
    ((process_retry_queue cfg now deliver s).2.all
        (fun e => !e.isDequeuedMain)) = true ∧
    (process_retry_queue cfg now deliver s).2.length =
      (get_retry_emails_read now s).length := by
  unfold process_retry_queue
  have h := retry_fold_events cfg now deliver (get_retry_emails now s).1
    ((get_retry_emails now s).2, [])
  refine ⟨?_, ?_⟩
  · rw [h.1]; rfl
  · rw [h.2]; simp [get_retry_emails]

/-- The main phase pops at most batch_size items. -/
theorem process_main_queue_pop_bound (cfg : QueueSettings) (now : Int)
    (deliver : EmailMessage → EmailResult) :
    ∀ (b : Nat) (s : QState),
      ((process_main_queue cfg now deliver b s).2.countP
        WEvent.isDequeuedMain) ≤ b := by
  intro b
  induction b with
  | zero => intro s; simp [process_main_queue]
  | succ b ih =>
    intro s
    unfold process_main_queue
    rcases hdq : dequeue s with ⟨oqe, s1⟩
    rcases oqe with _ | qe
    · simp
    · simp only []
      rcases worker_send_email_events cfg now deliver s1 qe with h | h <;>
        simp [h, List.countP_cons, List.countP_append, WEvent.isDequeuedMain,
          Nat.add_le_add_iff_right] <;>
      · have := ih (worker_send_email cfg now deliver s1 qe).1
        omega

/-- C6: in one poll cycle the retry phase runs before the main phase and its
event trace precedes all main-phase events; the retry phase pops nothing
from the main queue and handles every due entry (one event per drained
email, unbounded by batch_size); the main phase pops at most batch_size
items; and concretely, with three enqueued messages and batch_size = 2, one
cycle pops exactly 2 items and leaves 1 in the main segment. -/
theorem poll_cycle_retries_first_batch_bound :
    (∀ (cfg : QueueSettings) (batch : Nat) (now : Int)
        (deliver : EmailMessage → EmailResult) (s : QState),
      (poll_cycle cfg batch now deliver s).2 =
        (process_retry_queue cfg now deliver s).2 ++
          (process_main_queue cfg now deliver batch
            (process_retry_queue cfg now deliver s).1).2) ∧
    (∀ (cfg : QueueSettings) (now : Int)
        (deliver : EmailMessage → EmailResult) (s : QState),
      ((process_retry_queue cfg now deliver s).2.all
          (fun e => !e.isDequeuedMain)) = true ∧
      (process_retry_queue cfg now deliver s).2.length =
        (get_retry_emails_read now s).length) ∧
    (∀ (cfg : QueueSettings) (b : Nat) (now : Int)
        (deliver : EmailMessage → EmailResult) (s : QState),
      ((process_main_queue cfg now deliver b s).2.countP
        WEvent.isDequeuedMain) ≤ b) ∧
    ((poll_cycle ⟨3, 300⟩ 2 0 deliverOk (enqueueAll 0 QState.empty
        [(msgA, false), (msgB, false), (msgC, false)])).2.countP
          WEvent.isDequeuedMain = 2 ∧
     (poll_cycle ⟨3, 300⟩ 2 0 deliverOk (enqueueAll 0 QState.empty
        [(msgA, false), (msgB, false), (msgC, false)])).1.main.length = 1) := by
  refine ⟨?_, ?_, ?_, ?_⟩
  · intro cfg batch now deliver s
    rfl
  · intro cfg now deliver s
    exact process_retry_queue_events cfg now deliver s
  · intro cfg b now deliver s
    exact process_main_queue_pop_bound cfg now deliver b s
  · constructor <;> decide

/-- C10: once the rate-limit permit is acquired, send_email always returns
an EmailResult — a SENT result carrying a message id and no error when the
pipeline succeeds, a FAILED result whose error field holds the raised
exception's message on any failure; no other status ever occurs. In
particular an unknown SMTP account name yields a FAILED result (with the
ValueError message) even when the transport itself would have succeeded. -/
theorem send_email_total :
    (∀ (accounts : List (String × SMTPAccountSettings))
        (default_account : String) (email : EmailMessage) (now : Int)
        (transport : Except String String),
      ((send_email accounts default_account email now transport).status =
          EmailStatus.sent ∧
        (send_email accounts default_account email now transport).message_id.isSome = true ∧
        (send_email accounts default_account email now transport).error = none) ∨
      ((send_email accounts default_account email now transport).status =
          EmailStatus.failed ∧
        (send_email accounts default_account email now transport).error.isSome = true)) ∧
    ((send_email [] "default" msgU 0 (Except.ok "mid")).status =
        EmailStatus.failed ∧
      (send_email [] "default" msgU 0 (Except.ok "mid")).error.isSome = true) := by
  constructor
  · intro accounts default_account email now transport
    unfold send_email
    rcases hga : get_smtp_account accounts default_account email.smtp_account with e | a
    · right
      simp
    · rcases transport with e | mid
      · right
        simp
      · left
        simp
  · decide

end Mailing2Fast
